import Mathlib

/-!
Shallow embedding of `src/clean_project.py`.

The script holds a hardcoded list `files_to_delete`, prints a header and the
list, reads one line from stdin, strips it and compares it with the literal
"DELETE"; on mismatch it prints "Aborted by user." and exits with status 1;
on match it iterates the list, and for each path: if it exists it calls
`os.remove` (printing "Deleted: <f>" on success), otherwise it prints
"Skipped (not found): <f>"; any exception from the body is caught and
reported as "Failed to delete <f>: <e>", after which the loop continues.

The filesystem is modelled by `FS`: which paths exist, and whether an
`os.remove` call on a path would raise (and with what message).  Stdin is
`Option String`: `none` models end-of-file at the `input()` call, which in
Python raises an uncaught `EOFError` (abnormal termination, exit status 1,
no abort message, no filesystem mutation).
-/

/-- Python `str.strip()` whitespace predicate (ASCII whitespace characters). -/
def pyIsSpace (c : Char) : Bool :=
  c = ' ' || c = '\t' || c = '\n' || c = '\r' || c = '\x0b' || c = '\x0c'

/-- Python `s.strip()`: drop leading and trailing whitespace characters. -/
def pyStrip (s : String) : String :=
  String.mk (((s.toList.dropWhile pyIsSpace).reverse.dropWhile pyIsSpace).reverse)

/-- First hardcoded target path (from `files_to_delete` in the script). -/
def path1 : String :=
  "c:\\Users\\chrom\\Videos\\blueprint  stable\\blueprint  stable complete back up\\pubspec.yaml"

/-- Second hardcoded target path. -/
def path2 : String :=
  "c:\\Users\\chrom\\Videos\\blueprint  stable\\blueprint  stable complete back up\\analysis_options.yaml"

/-- Third hardcoded target path. -/
def path3 : String :=
  "c:\\Users\\chrom\\Videos\\blueprint  stable\\blueprint  stable complete back up\\README.md"

/-- The hardcoded list of target paths, in source order. -/
def files_to_delete : List String := [path1, path2, path3]

/-- Outcome of one iteration of the deletion loop for one path. -/
inductive Outcome where
  | deleted : Outcome
  | skippedNotFound : Outcome
  | failed : String → Outcome
deriving DecidableEq, Repr

/-- Filesystem model: which paths exist, and whether `os.remove` on a path
raises an exception (carrying its message) instead of removing it. -/
structure FS where
  pathExists : String → Bool
  removeError : String → Option String

/-- One iteration of the loop body (`try: if os.path.exists(f): os.remove(f)
... else: ... except ...`): returns the outcome and the updated filesystem. -/
def processPath (fs : FS) (f : String) : Outcome × FS :=
  if fs.pathExists f then
    match fs.removeError f with
    | some r => (Outcome.failed r, fs)
    | none =>
        (Outcome.deleted,
         { fs with pathExists := fun p => if p = f then false else fs.pathExists p })
  else
    (Outcome.skippedNotFound, fs)

/-- The deletion loop over a list of paths: the per-path outcome log (in
visit order) and the final filesystem. -/
def deletionLoop : List String → FS → List (String × Outcome) × FS
  | [], fs => ([], fs)
  | f :: rest, fs =>
      let step := processPath fs f
      let tail := deletionLoop rest step.2
      ((f, step.1) :: tail.1, tail.2)

/-- The header line printed before the path listing. -/
def headerLine : String := "Files marked for deletion:"

/-- The abort message printed on confirmation mismatch. -/
def abortLine : String := "Aborted by user."

/-- The line printed for one path's outcome in the deletion phase. -/
def outcomeLine (f : String) : Outcome → String
  | Outcome.deleted => "Deleted: " ++ f
  | Outcome.skippedNotFound => "Skipped (not found): " ++ f
  | Outcome.failed r => "Failed to delete " ++ f ++ ": " ++ r

/-- How the process ends: a normal exit with a status code, or an uncaught
exception (Python terminates with status 1 and a traceback). -/
inductive Termination where
  | normalExit : Nat → Termination
  | uncaughtException : Termination
deriving DecidableEq, Repr

/-- The process exit status determined by a `Termination`. -/
def exitStatus : Termination → Nat
  | Termination.normalExit c => c
  | Termination.uncaughtException => 1

/-- Trace of one run: the lines printed via `print`, the per-path outcome
log of the deletion phase, how the process ended, and the final filesystem.
(The `input()` prompt is written without a newline and is part of the input
interface, not a printed line.) -/
structure RunTrace where
  lines : List String
  log : List (String × Outcome)
  term : Termination
  fsFinal : FS

/-- One run of the whole script.  `stdin = none` models end-of-file at the
`input()` call (uncaught `EOFError`). -/
def run (stdin : Option String) (fs : FS) : RunTrace :=
  let listing := headerLine :: files_to_delete
  match stdin with
  | none =>
      { lines := listing, log := [],
        term := Termination.uncaughtException, fsFinal := fs }
  | some s =>
      if pyStrip s = "DELETE" then
        let res := deletionLoop files_to_delete fs
        { lines := listing ++ res.1.map (fun p => outcomeLine p.1 p.2),
          log := res.1, term := Termination.normalExit 0, fsFinal := res.2 }
      else
        { lines := listing ++ [abortLine], log := [],
          term := Termination.normalExit 1, fsFinal := fs }

/-- A demo filesystem where every path exists and every removal succeeds. -/
def fsDemo : FS :=
  { pathExists := fun _ => true, removeError := fun _ => none }

/-- A demo filesystem where every path exists and every removal raises. -/
def fsFailAll : FS :=
  { pathExists := fun _ => true, removeError := fun _ => some "Permission denied" }

/-- A demo filesystem where no path exists. -/
def fsEmpty : FS :=
  { pathExists := fun _ => false, removeError := fun _ => none }

theorem processPath_removeError (fs : FS) (f : String) :
    ((processPath fs f).2).removeError = fs.removeError := by
  unfold processPath
  by_cases h : fs.pathExists f
  · cases hre : fs.removeError f <;> simp [h, hre]
  · simp [h]

theorem processPath_frame (fs : FS) (f p : String) (hp : p ≠ f) :
    ((processPath fs f).2).pathExists p = fs.pathExists p := by
  unfold processPath
  by_cases h : fs.pathExists f
  · cases hre : fs.removeError f <;> simp [h, hre, hp]
  · simp [h]

theorem processPath_mono (fs : FS) (f p : String)
    (h : ((processPath fs f).2).pathExists p = true) :
    fs.pathExists p = true := by
  by_cases hp : p = f
  · subst hp
    unfold processPath at h
    by_cases he : fs.pathExists p
    · exact he
    · simp [he] at h
  · rwa [processPath_frame fs f p hp] at h

theorem loop_fst (ps : List String) (fs : FS) :
    ((deletionLoop ps fs).1).map Prod.fst = ps := by
  induction ps generalizing fs with
  | nil => rfl
  | cons f rest ih => simp [deletionLoop, ih]

theorem loop_removeError (ps : List String) (fs : FS) :
    ((deletionLoop ps fs).2).removeError = fs.removeError := by
  induction ps generalizing fs with
  | nil => rfl
  | cons f rest ih =>
      simp [deletionLoop, ih, processPath_removeError]

theorem loop_frame (ps : List String) (fs : FS) (p : String) (hp : p ∉ ps) :
    ((deletionLoop ps fs).2).pathExists p = fs.pathExists p := by
  induction ps generalizing fs with
  | nil => rfl
  | cons f rest ih =>
      simp only [List.mem_cons, not_or] at hp
      simp [deletionLoop, ih _ hp.2, processPath_frame fs f p hp.1]

theorem loop_mono (ps : List String) (fs : FS) (p : String)
    (h : ((deletionLoop ps fs).2).pathExists p = true) :
    fs.pathExists p = true := by
  induction ps generalizing fs with
  | nil => exact h
  | cons f rest ih =>
      simp only [deletionLoop] at h
      exact processPath_mono fs f p (ih _ h)

theorem loop_all_skipped (ps : List String) (fs : FS)
    (h : ∀ f ∈ ps, fs.pathExists f = false) :
    deletionLoop ps fs = (ps.map (fun f => (f, Outcome.skippedNotFound)), fs) := by
  induction ps generalizing fs with
  | nil => rfl
  | cons f rest ih =>
      have hf : fs.pathExists f = false := h f (List.mem_cons_self f rest)
      have hstep : processPath fs f = (Outcome.skippedNotFound, fs) := by
        unfold processPath; simp [hf]
      simp [deletionLoop, hstep, ih fs (fun g hg => h g (List.mem_cons_of_mem f hg))]

theorem loop_nofail_removed (ps : List String) (fs : FS)
    (h : ∀ f r, (f, Outcome.failed r) ∉ (deletionLoop ps fs).1) :
    ∀ f ∈ ps, ((deletionLoop ps fs).2).pathExists f = false := by
  induction ps generalizing fs with
  | nil => intro f hf; cases hf
  | cons f rest ih =>
      intro g hg
      have hloop :
          deletionLoop (f :: rest) fs =
            ((f, (processPath fs f).1) :: (deletionLoop rest (processPath fs f).2).1,
              (deletionLoop rest (processPath fs f).2).2) := rfl
      have htail : ∀ g r,
          (g, Outcome.failed r) ∉ (deletionLoop rest (processPath fs f).2).1 := by
        intro g r hmem
        exact h g r (by rw [hloop]; exact List.mem_cons_of_mem _ hmem)
      rcases List.mem_cons.mp hg with hgf | hgr
      · rw [hgf, hloop]
        have hstep : ((processPath fs f).2).pathExists f = false := by
          by_cases he : fs.pathExists f
          · cases hre : fs.removeError f with
            | some r =>
                exfalso
                apply h f r
                rw [hloop]
                have hfst : (processPath fs f).1 = Outcome.failed r := by
                  unfold processPath; simp [he, hre]
                rw [hfst]
                exact List.mem_cons_self _ _
            | none =>
                unfold processPath
                simp [he, hre]
          · unfold processPath
            simp [he]
        by_cases hfin :
            ((deletionLoop rest (processPath fs f).2).2).pathExists f = true
        · exact absurd (loop_mono rest _ f hfin) (by simp [hstep])
        · simpa using hfin
      · rw [hloop]
        exact ih ((processPath fs f).2) htail g hgr

/-- C1: if the trimmed input is not "DELETE", the run performs no filesystem
mutation (final filesystem equals the initial one), prints the abort
message, and terminates with exit status 1. -/
theorem C1_mismatch_aborts (s : String) (fs : FS)
    (h : pyStrip s ≠ "DELETE") :
    (run (some s) fs).fsFinal = fs ∧
    (run (some s) fs).term = Termination.normalExit 1 ∧
    exitStatus (run (some s) fs).term = 1 ∧
    abortLine ∈ (run (some s) fs).lines := by
  refine ⟨by simp [run, h], by simp [run, h], by simp [run, h, exitStatus], ?_⟩
  simp [run, h]

/-- Witness for C1: the input "no" on the demo filesystem. -/
theorem C1_witness :
    (run (some "no") fsDemo).fsFinal = fsDemo ∧
    (run (some "no") fsDemo).term = Termination.normalExit 1 ∧
    exitStatus (run (some "no") fsDemo).term = 1 ∧
    abortLine ∈ (run (some "no") fsDemo).lines :=
  C1_mismatch_aborts "no" fsDemo (by decide)

/-- C2: in a confirmed run, the deletion log visits exactly the configured
paths, once each, in list order (duplicates would be processed
independently); the log is a function of the initial filesystem alone; and
each visit yields one of the three outcomes deleted / skipped / failed. -/
theorem C2_confirmed_visits_all (s : String) (fs : FS)
    (h : pyStrip s = "DELETE") :
    ((run (some s) fs).log).map Prod.fst = files_to_delete ∧
    (run (some s) fs).log = (deletionLoop files_to_delete fs).1 ∧
    ∀ f o, (f, o) ∈ (run (some s) fs).log →
      o = Outcome.deleted ∨ o = Outcome.skippedNotFound ∨ ∃ r, o = Outcome.failed r := by
  refine ⟨by simp [run, h, loop_fst], by simp [run, h], ?_⟩
  intro f o _
  cases o with
  | deleted => exact Or.inl rfl
  | skippedNotFound => exact Or.inr (Or.inl rfl)
  | failed r => exact Or.inr (Or.inr ⟨r, rfl⟩)

/-- Witness for C2: the input "DELETE" on a filesystem where every removal
raises. -/
theorem C2_witness :
    ((run (some "DELETE") fsFailAll).log).map Prod.fst = files_to_delete ∧
    (run (some "DELETE") fsFailAll).log = (deletionLoop files_to_delete fsFailAll).1 ∧
    ∀ f o, (f, o) ∈ (run (some "DELETE") fsFailAll).log →
      o = Outcome.deleted ∨ o = Outcome.skippedNotFound ∨ ∃ r, o = Outcome.failed r :=
  C2_confirmed_visits_all "DELETE" fsFailAll (by decide)

/-- C3: a removal failure is caught locally: the visit records the failure
with its reason, the loop continues with the remaining paths exactly as it
would from the unchanged filesystem (no retry, no abort), every path after
the failure is still visited, and the failure line printed for it names the
path and the reason. -/
theorem C3_failure_isolated (fs : FS) (f r : String) (rest : List String)
    (hex : fs.pathExists f = true) (herr : fs.removeError f = some r) :
    deletionLoop (f :: rest) fs =
      ((f, Outcome.failed r) :: (deletionLoop rest fs).1, (deletionLoop rest fs).2) ∧
    ((deletionLoop (f :: rest) fs).1).map Prod.fst = f :: rest ∧
    outcomeLine f (Outcome.failed r) = "Failed to delete " ++ f ++ ": " ++ r ∧
    (∀ s, pyStrip s = "DELETE" → (f, Outcome.failed r) ∈ (run (some s) fs).log →
      outcomeLine f (Outcome.failed r) ∈ (run (some s) fs).lines) := by
  have hstep : processPath fs f = (Outcome.failed r, fs) := by
    unfold processPath; simp [hex, herr]
  refine ⟨by simp [deletionLoop, hstep], loop_fst _ _, rfl, ?_⟩
  intro s hs hmem
  simp only [run, hs, if_pos] at hmem ⊢
  simp only [List.mem_append]
  right
  exact List.mem_map.mpr ⟨(f, Outcome.failed r), hmem, rfl⟩

/-- Witness for C3: the first path failing with "Permission denied" on a
filesystem where every removal raises. -/
theorem C3_witness :
    (deletionLoop (path1 :: [path2]) fsFailAll =
      ((path1, Outcome.failed "Permission denied") :: (deletionLoop [path2] fsFailAll).1,
        (deletionLoop [path2] fsFailAll).2)) ∧
    ((deletionLoop (path1 :: [path2]) fsFailAll).1).map Prod.fst = path1 :: [path2] ∧
    outcomeLine path1 (Outcome.failed "Permission denied") =
      "Failed to delete " ++ path1 ++ ": " ++ "Permission denied" ∧
    (∀ s, pyStrip s = "DELETE" →
      (path1, Outcome.failed "Permission denied") ∈ (run (some s) fsFailAll).log →
      outcomeLine path1 (Outcome.failed "Permission denied") ∈
        (run (some s) fsFailAll).lines) :=
  C3_failure_isolated fsFailAll path1 "Permission denied" [path2] (by decide) (by decide)

/-- C4: frame property of a whole run: any path outside the hardcoded list
keeps its existence status; no path ever comes into existence (the only
effect is removal); and the removal-error oracle (everything about the
filesystem other than existence of the listed paths) is untouched. -/
theorem C4_frame (stdin : Option String) (fs : FS) (p : String)
    (hp : p ∉ files_to_delete) :
    (run stdin fs).fsFinal.pathExists p = fs.pathExists p ∧
    (∀ q, (run stdin fs).fsFinal.pathExists q = true → fs.pathExists q = true) ∧
    (run stdin fs).fsFinal.removeError = fs.removeError := by
  cases stdin with
  | none => exact ⟨rfl, fun q hq => hq, rfl⟩
  | some s =>
      by_cases h : pyStrip s = "DELETE"
      · refine ⟨?_, ?_, ?_⟩
        · simp [run, h, loop_frame files_to_delete fs p hp]
        · intro q hq
          simp only [run, h, if_pos] at hq
          exact loop_mono _ _ _ hq
        · simp [run, h, loop_removeError]
      · exact ⟨by simp [run, h], fun q hq => by simpa [run, h] using hq,
          by simp [run, h]⟩

/-- Witness for C4: a confirmed run on the demo filesystem leaves the
unlisted path "/etc/passwd" untouched. -/
theorem C4_witness :
    (run (some "DELETE") fsDemo).fsFinal.pathExists "/etc/passwd" =
      fsDemo.pathExists "/etc/passwd" ∧
    (∀ q, (run (some "DELETE") fsDemo).fsFinal.pathExists q = true →
      fsDemo.pathExists q = true) ∧
    (run (some "DELETE") fsDemo).fsFinal.removeError = fsDemo.removeError :=
  C4_frame (some "DELETE") fsDemo "/etc/passwd" (by decide)

/-- C5: a confirmed run terminates normally with exit status 0 for every
filesystem, hence regardless of how many per-path deletions failed or were
skipped. -/
theorem C5_confirmed_exit_zero (s : String) (fs : FS)
    (h : pyStrip s = "DELETE") :
    (run (some s) fs).term = Termination.normalExit 0 ∧
    exitStatus (run (some s) fs).term = 0 := by
  refine ⟨by simp [run, h], by simp [run, h, exitStatus]⟩

/-- Witness for C5: a confirmed run in which every single deletion fails
still exits with status 0. -/
theorem C5_witness :
    (run (some "DELETE") fsFailAll).term = Termination.normalExit 0 ∧
    exitStatus (run (some "DELETE") fsFailAll).term = 0 :=
  C5_confirmed_exit_zero "DELETE" fsFailAll (by decide)

/-- C6: the confirmation decision is exactly `pyStrip input = "DELETE"`:
a run confirms (exits 0) iff the stripped input equals "DELETE"; the input
"  DELETE  " produces the very same run as "DELETE"; the inputs "delete"
and "DELETE everything" abort with status 1 (case sensitivity, no partial
match). -/
theorem C6_confirmation_rule :
    (∀ s fs, (run (some s) fs).term = Termination.normalExit 0 ↔
      pyStrip s = "DELETE") ∧
    (∀ fs, run (some "  DELETE  ") fs = run (some "DELETE") fs) ∧
    (∀ fs, (run (some "delete") fs).term = Termination.normalExit 1) ∧
    (∀ fs, (run (some "DELETE everything") fs).term = Termination.normalExit 1) := by
  refine ⟨?_, ?_, ?_, ?_⟩
  · intro s fs
    constructor
    · intro ht
      by_cases h : pyStrip s = "DELETE"
      · exact h
      · exfalso
        simp [run, h] at ht
    · intro h
      simp [run, h]
  · intro fs
    have h1 : pyStrip "  DELETE  " = "DELETE" := by decide
    have h2 : pyStrip "DELETE" = "DELETE" := by decide
    simp [run, h1, h2]
  · intro fs
    have h : pyStrip "delete" ≠ "DELETE" := by decide
    simp [run, h]
  · intro fs
    have h : pyStrip "DELETE everything" ≠ "DELETE" := by decide
    simp [run, h]

/-- Witness for C6: the three concrete inputs evaluated on the demo
filesystem. -/
theorem C6_witness :
    run (some "  DELETE  ") fsDemo = run (some "DELETE") fsDemo ∧
    (run (some "delete") fsDemo).term = Termination.normalExit 1 ∧
    (run (some "DELETE everything") fsDemo).term = Termination.normalExit 1 :=
  ⟨C6_confirmation_rule.2.1 fsDemo, C6_confirmation_rule.2.2.1 fsDemo,
    C6_confirmation_rule.2.2.2 fsDemo⟩

/-- C7: a path that does not exist at its visit is recorded as skipped, the
filesystem is unchanged by the visit, the loop continues with the remaining
paths, the printed line is "Skipped (not found): <f>", and a confirmed run
on such a filesystem still terminates normally with status 0. -/
theorem C7_missing_skipped (fs : FS) (f : String) (rest : List String)
    (h : fs.pathExists f = false) :
    deletionLoop (f :: rest) fs =
      ((f, Outcome.skippedNotFound) :: (deletionLoop rest fs).1,
        (deletionLoop rest fs).2) ∧
    outcomeLine f Outcome.skippedNotFound = "Skipped (not found): " ++ f ∧
    (∀ s, pyStrip s = "DELETE" →
      (run (some s) fs).term = Termination.normalExit 0) := by
  have hstep : processPath fs f = (Outcome.skippedNotFound, fs) := by
    unfold processPath; simp [h]
  refine ⟨by simp [deletionLoop, hstep], rfl, ?_⟩
  intro s hs
  simp [run, hs]

/-- Witness for C7: the first path on the empty filesystem. -/
theorem C7_witness :
    deletionLoop (path1 :: [path2, path3]) fsEmpty =
      ((path1, Outcome.skippedNotFound) :: (deletionLoop [path2, path3] fsEmpty).1,
        (deletionLoop [path2, path3] fsEmpty).2) ∧
    outcomeLine path1 Outcome.skippedNotFound = "Skipped (not found): " ++ path1 ∧
    (∀ s, pyStrip s = "DELETE" →
      (run (some s) fsEmpty).term = Termination.normalExit 0) :=
  C7_missing_skipped fsEmpty path1 [path2, path3] (by decide)

/-- C8: shape of the printed output.  Every run starts with the header line
followed by one line per configured path in list order; a confirmed run
then appends exactly one outcome line per path, each of one of the three
forms "Deleted: <f>", "Skipped (not found): <f>", "Failed to delete <f>:
<r>"; an aborted run appends the single abort line instead. -/
theorem C8_output_shape (s : String) (fs : FS) :
    (pyStrip s = "DELETE" →
      (run (some s) fs).lines =
        (headerLine :: files_to_delete) ++
          ((deletionLoop files_to_delete fs).1).map (fun p => outcomeLine p.1 p.2) ∧
      ((run (some s) fs).lines).length =
        (headerLine :: files_to_delete).length + files_to_delete.length ∧
      (∀ l ∈ ((deletionLoop files_to_delete fs).1).map (fun p => outcomeLine p.1 p.2),
        (∃ f, l = "Deleted: " ++ f) ∨
        (∃ f, l = "Skipped (not found): " ++ f) ∨
        (∃ f r, l = "Failed to delete " ++ f ++ ": " ++ r))) ∧
    (pyStrip s ≠ "DELETE" →
      (run (some s) fs).lines = (headerLine :: files_to_delete) ++ [abortLine]) := by
  constructor
  · intro h
    have hlen : ((deletionLoop files_to_delete fs).1).length = files_to_delete.length := by
      have hfst := loop_fst files_to_delete fs
      calc ((deletionLoop files_to_delete fs).1).length
          = (((deletionLoop files_to_delete fs).1).map Prod.fst).length :=
            (List.length_map _ _).symm
        _ = files_to_delete.length := by rw [hfst]
    refine ⟨by simp [run, h], ?_, ?_⟩
    · simp [run, h, hlen]
      omega
    · intro l hl
      rcases List.mem_map.mp hl with ⟨⟨f, o⟩, _, rfl⟩
      cases o with
      | deleted => exact Or.inl ⟨f, rfl⟩
      | skippedNotFound => exact Or.inr (Or.inl ⟨f, rfl⟩)
      | failed r => exact Or.inr (Or.inr ⟨f, r, rfl⟩)
  · intro h
    simp [run, h]

/-- Witness for C8: the confirmed branch at input "DELETE" on the empty
filesystem. -/
theorem C8_witness :
    (run (some "DELETE") fsEmpty).lines =
      (headerLine :: files_to_delete) ++
        ((deletionLoop files_to_delete fsEmpty).1).map (fun p => outcomeLine p.1 p.2) ∧
    ((run (some "DELETE") fsEmpty).lines).length =
      (headerLine :: files_to_delete).length + files_to_delete.length ∧
    (∀ l ∈ ((deletionLoop files_to_delete fsEmpty).1).map (fun p => outcomeLine p.1 p.2),
      (∃ f, l = "Deleted: " ++ f) ∨
      (∃ f, l = "Skipped (not found): " ++ f) ∨
      (∃ f r, l = "Failed to delete " ++ f ++ ": " ++ r)) :=
  (C8_output_shape "DELETE" fsEmpty).1 (by decide)

/-- C9: idempotence across two confirmed runs: if the first run had no
failure, then every target path that existed before the first run is
reported skipped (not found) by the second run. -/
theorem C9_idempotent (s1 s2 : String) (fs : FS)
    (h1 : pyStrip s1 = "DELETE") (h2 : pyStrip s2 = "DELETE")
    (hnf : ∀ f r, (f, Outcome.failed r) ∉ (run (some s1) fs).log) :
    ∀ f ∈ files_to_delete, fs.pathExists f = true →
      (f, Outcome.skippedNotFound) ∈
        (run (some s2) ((run (some s1) fs).fsFinal)).log := by
  intro f hf _
  have hlog1 : (run (some s1) fs).log = (deletionLoop files_to_delete fs).1 := by
    simp [run, h1]
  have hfs1 : (run (some s1) fs).fsFinal = (deletionLoop files_to_delete fs).2 := by
    simp [run, h1]
  have hgone : ∀ g ∈ files_to_delete,
      ((deletionLoop files_to_delete fs).2).pathExists g = false := by
    apply loop_nofail_removed
    intro g r hmem
    exact hnf g r (by rw [hlog1]; exact hmem)
  have hskip :
      deletionLoop files_to_delete ((run (some s1) fs).fsFinal) =
        (files_to_delete.map (fun g => (g, Outcome.skippedNotFound)),
          (run (some s1) fs).fsFinal) := by
    rw [hfs1]
    exact loop_all_skipped _ _ hgone
  have hlog2 : ∀ X : FS,
      deletionLoop files_to_delete X =
        (files_to_delete.map (fun g => (g, Outcome.skippedNotFound)), X) →
      (run (some s2) X).log =
        files_to_delete.map (fun g => (g, Outcome.skippedNotFound)) := by
    intro X hXs
    simp [run, h2, hXs]
  rw [hlog2 _ hskip]
  exact List.mem_map.mpr ⟨f, hf, rfl⟩

/-- Witness for C9: two confirmed runs on the demo filesystem, where every
path exists and the first run deletes all of them without failure. -/
theorem C9_witness :
    (path1, Outcome.skippedNotFound) ∈
      (run (some "DELETE") ((run (some "DELETE") fsDemo).fsFinal)).log :=
  C9_idempotent "DELETE" "DELETE" fsDemo (by decide) (by decide)
    (by
      intro f r hmem
      have hlog : (run (some "DELETE") fsDemo).log =
          [(path1, Outcome.deleted), (path2, Outcome.deleted),
            (path3, Outcome.deleted)] := by decide
      rw [hlog] at hmem
      simp at hmem)
    path1 (by decide) (by decide)

/-- C10: end-of-file at the confirmation prompt: the read fails with an
uncaught exception, the process terminates abnormally with a nonzero
status, no abort message is printed, the deletion log is empty, and the
filesystem is untouched. -/
theorem C10_eof_crash (fs : FS) :
    (run none fs).term = Termination.uncaughtException ∧
    exitStatus (run none fs).term ≠ 0 ∧
    (run none fs).fsFinal = fs ∧
    (run none fs).log = [] ∧
    abortLine ∉ (run none fs).lines := by
  refine ⟨rfl, by simp [run, exitStatus], rfl, rfl, ?_⟩
  show abortLine ∉ headerLine :: files_to_delete
  decide

/-- Witness for C10: end-of-file on the demo filesystem. -/
theorem C10_witness :
    (run none fsDemo).term = Termination.uncaughtException ∧
    exitStatus (run none fsDemo).term ≠ 0 ∧
    (run none fsDemo).fsFinal = fsDemo ∧
    (run none fsDemo).log = [] ∧
    abortLine ∉ (run none fsDemo).lines :=
  C10_eof_crash fsDemo
